import Mathlib

/-!
Verification development for the NGS table dashboard (`src/app.py`).

The program is a pandas-based web app. Its core logic is:
* a data cleaner inside `get_table_data` (lines 204-218): per-column string
  normalisation, numeric coercion, and blanking of the "Code" field on
  "Total" rows;
* `get_basic_statistics` (lines 157-180): per-numeric-column descriptive
  statistics with a table-wide exception handler;
* `create_visualizations` (lines 69-155): category/frequency filtering and
  chart-series shaping.

The shallow embedding models a pandas `DataFrame` as a list of named columns.
A column is either numeric-typed (`float64`/`int64`: a list of optional
rationals, `none` standing for `NaN`) or object-typed (a list of cells, which
may be strings, numbers, or missing).  Machine floats are modelled by `ℚ`;
float-formatting corners (scientific notation, infinities, binary rounding of
`round(x, 2)`) are outside the model and are not relied on by any theorem.
-/

set_option autoImplicit false

deriving instance DecidableEq for Except

/-- A cell of an object-typed (pandas `object` dtype) column: missing (`NaN`),
a string, or a number that happens to live in an object column (as produced,
e.g., by pandas upcasting a numeric column on incompatible assignment).
`qnum` models a Python float stored as an object. -/
inductive Cell where
  | na : Cell
  | str (s : String) : Cell
  | qnum (q : ℚ) : Cell
deriving DecidableEq, Repr

/-- Column payload: `num` models a numeric dtype (`none` = `NaN`),
`obj` models pandas `object` dtype. -/
inductive ColData where
  | obj (cells : List Cell) : ColData
  | num (vals : List (Option ℚ)) : ColData
deriving DecidableEq, Repr

/-- A named column of a table. -/
structure Col where
  name : String
  data : ColData
deriving DecidableEq, Repr

/-- A table (pandas `DataFrame`): ordered named columns. -/
abbrev Table := List Col

/-- Returns true for a numeric dtype, mirroring `pd.api.types.is_numeric_dtype`. -/
def isNumericTyped (d : ColData) : Bool :=
  match d with
  | .num _ => true
  | .obj _ => false

/-- Returns true for the `object` dtype (text-typed in the spec vocabulary). -/
def isTextTyped (d : ColData) : Bool :=
  match d with
  | .obj _ => true
  | .num _ => false

/-- Number of cells of a column payload. -/
def dataLen (d : ColData) : ℕ :=
  match d with
  | .obj cells => cells.length
  | .num vs => vs.length

/-- Cell lookup in a column payload; numeric values are exposed the way
`tolist`/object views expose them (`NaN` as a missing cell). -/
def optToCell (o : Option ℚ) : Cell :=
  match o with
  | none => .na
  | some q => .qnum q

/-- Cell of a column payload at a row index. -/
def dataCellAt (d : ColData) (i : ℕ) : Option Cell :=
  match d with
  | .obj cells => cells[i]?
  | .num vs => (vs[i]?).map optToCell

/-- Column lookup by exact name (first match), mirroring `df[name]` /
`name in df.columns`. -/
def getCol (t : Table) (n : String) : Option Col :=
  match t with
  | [] => none
  | c :: cs => if c.name = n then some c else getCol cs n

/-- Number of rows (all columns of a well-formed table have equal length). -/
def nRows (t : Table) : ℕ :=
  match t with
  | [] => 0
  | c :: _ => dataLen c.data

/-- Emptiness test `df.empty`: no columns or no rows. -/
def tableEmpty (t : Table) : Bool :=
  t.isEmpty || nRows t == 0

/-! ### String helpers (ASCII models of the Python string operations used) -/

/-- ASCII whitespace test, modelling what `str.strip()` removes. -/
def isWs (c : Char) : Bool :=
  c == ' ' || c == '\t' || c == '\n' || c == '\r'

/-- Python `str.strip` : drop leading and trailing whitespace. -/
def pdStrip (s : String) : String :=
  String.mk (((s.data.dropWhile isWs).reverse.dropWhile isWs).reverse)

/-- ASCII lower-casing of one character. -/
def lowerChar (c : Char) : Char :=
  if 'A' ≤ c ∧ c ≤ 'Z' then Char.ofNat (c.toNat + 32) else c

/-- Python `str.lower` (ASCII model). -/
def pdLower (s : String) : String :=
  String.mk (s.data.map lowerChar)

/-- Removal of every comma and percent sign via the two chained
`str.replace` calls of source line 209. -/
def stripCP (s : String) : String :=
  String.mk (s.data.filter (fun c => !(c == ',' || c == '%')))

/-- Removal of every comma via the `str.replace` call of source line 88. -/
def stripComma (s : String) : String :=
  String.mk (s.data.filter (fun c => !(c == ',')))

/-- Numeric value of a digit string. -/
def digitsVal (l : List Char) : ℕ :=
  l.foldl (fun a c => 10 * a + (c.toNat - 48)) 0

/-- Decimal digits of the fractional part `r / d`, most significant first,
with fuel bounding the expansion (floats have finite decimal expansions). -/
def fracDigits : ℕ → ℕ → ℕ → List ℕ
  | _, _, 0 => []
  | r, d, fuel + 1 => if r = 0 then [] else (10 * r) / d :: fracDigits ((10 * r) % d) d fuel

/-- Digit to character. -/
def digitChar (k : ℕ) : Char :=
  Char.ofNat (48 + k)

/-- Python `str` of a float: `str` of `2.0` is the text `2.0`, of `1.5` the
text `1.5`; non-terminating expansions are truncated, which is faithful for
actual floats. -/
def numToStr (q : ℚ) : String :=
  let a := q.num.natAbs
  let d := q.den
  let ip := a / d
  let r := a % d
  let frac := if r = 0 then "0" else String.mk ((fracDigits r d 20).map digitChar)
  (if q < 0 then "-" else "") ++ toString ip ++ "." ++ frac

/-- Model of `astype(str)` on one object cell: `NaN` becomes the literal
string `nan`, numbers are stringified, strings are unchanged (source
line 206). -/
def astypeStr (c : Cell) : String :=
  match c with
  | .na => "nan"
  | .str s => s
  | .qnum q => numToStr q

/-- Parser of one trimmed unsigned numeric literal: digits with an optional
single decimal point (`"12"`, `"1.5"`, `".5"`, `"5."`).  Scientific notation
and infinities are outside the model. -/
def parseUnsignedChars (l : List Char) : Option ℚ :=
  let I := l.takeWhile Char.isDigit
  let rest := l.dropWhile Char.isDigit
  match rest with
  | [] => if I.isEmpty then none else some ((digitsVal I : ℕ) : ℚ)
  | '.' :: F =>
    if F.all Char.isDigit && !(I.isEmpty && F.isEmpty) then
      some ((digitsVal I : ℚ) + (digitsVal F : ℚ) / ((10 : ℚ) ^ F.length))
    else none
  | _ => none

/-- Model of `pd.to_numeric` on one string: `none` = parse failure (raises
under errors=raise, becomes `NaN` under errors=coerce); `some none` = the
string `nan` in any case, which parses to `NaN`; `some (some q)` = a number.
The empty string fails to parse. -/
def pdToNumeric (s : String) : Option (Option ℚ) :=
  let t := pdStrip s
  if t = "" then none
  else if pdLower t = "nan" then some none
  else
    match t.data with
    | '+' :: r => (parseUnsignedChars r).map some
    | '-' :: r => (parseUnsignedChars r).map (fun q => some (-q))
    | r => (parseUnsignedChars r).map some

/-! ### The data cleaner (source lines 204-218) -/

/-- One iteration of the cleaning loop (source lines 204-213), acting on the
payload of the column named `n`: numeric columns are skipped; an object
column is stringified with `astype(str)`; non-"code" columns are then
comma/percent-stripped and converted with `pd.to_numeric`, the conversion
being kept only if every value parses (the `try`/`except: pass`). -/
def cleanData (n : String) (d : ColData) : ColData :=
  match d with
  | .num vs => .num vs
  | .obj cells =>
    let strs := cells.map astypeStr
    if pdLower n = "code" then .obj (strs.map Cell.str)
    else
      let stripped := strs.map stripCP
      if stripped.all (fun s => (pdToNumeric s).isSome) then
        .num (stripped.map (fun s => (pdToNumeric s).join))
      else .obj (stripped.map Cell.str)

/-- The cleaning loop on one named column. -/
def cleanCol (c : Col) : Col :=
  ⟨c.name, cleanData c.name c.data⟩

/-- The cleaning loop over all columns. -/
def cleanCols (t : Table) : Table :=
  t.map cleanCol

/-- Row mask entry of the comparison on source line 217 (strip, lower,
compare with the text `total`): non-string cells compare false (the `.str`
accessor yields `NaN` for them). -/
def maskCell (c : Cell) : Bool :=
  match c with
  | .str s => pdLower (pdStrip s) = "total"
  | _ => false

/-- Model of the masked assignment of an empty string into the Code column
(source line 218) on one column payload, in the case where the mask selects
at least one row: writing a string into a numeric column upcasts it to
`object`, keeping the untouched numeric values as object cells. -/
def blankData (mask : List Bool) (d : ColData) : ColData :=
  match d with
  | .obj cells => .obj (List.zipWith (fun m c => if m then Cell.str "" else c) mask cells)
  | .num vs => .obj (List.zipWith (fun m v => if m then Cell.str "" else optToCell v) mask vs)

/-- Apply the Total-row blanking to one column: only the column named
exactly `"Code"` is written to. -/
def blankCol (mask : List Bool) (c : Col) : Col :=
  if c.name = "Code" then ⟨c.name, blankData mask c.data⟩ else c

/-- The `AttributeError` message raised by the `.str` accessor on a
non-string (numeric) column. -/
def strAccessorErr : String :=
  "Can only use .str accessor with string values"

/-- The Total-row handling (source lines 216-218): if both an
`"Answer Categories"` and a `"Code"` column exist, compute the mask of rows
whose trimmed lower-cased category is `"total"` and blank those rows of the
`"Code"` column.  Applying `.str` to a numeric-typed category column raises
(`Except.error`); a mask selecting no row performs no write (and hence no
dtype upcast). -/
def blankWith : ColData → Table → Except String Table
  | .num _, _ => .error strAccessorErr
  | .obj cells, t =>
    if ((cells.map maskCell).any (fun b => b)) then
      .ok (t.map (blankCol (cells.map maskCell)))
    else .ok t

/-- Dispatch on the presence of the two columns (the guard of source
line 216). -/
def blankStep : Option Col → Option Col → Table → Except String Table
  | none, _, t => .ok t
  | some _, none, t => .ok t
  | some ca, some _, t => blankWith ca.data t

def blankTotals (t : Table) : Except String Table :=
  blankStep (getCol t "Answer Categories") (getCol t "Code") t

theorem blankStep_none (x : Option Col) (t : Table) : blankStep none x t = .ok t := rfl

theorem blankStep_some_none (ca : Col) (t : Table) : blankStep (some ca) none t = .ok t := rfl

theorem blankStep_some_some (ca cc : Col) (t : Table) :
    blankStep (some ca) (some cc) t = blankWith ca.data t := rfl

/-- The whole cleaning stage of `get_table_data` (source lines 204-218). -/
def clean (t : Table) : Except String Table :=
  (cleanCols t) |> blankTotals

/-! ### The visualization shaper (`create_visualizations`, source lines 69-155) -/

/-- Row-keeping test of the category filter (source lines 82-85): keep rows
whose category is present and differs from the literal text `Total`.
Missing cells are dropped; the comparison is exact and case-sensitive;
non-string values are never equal to `Total`. -/
def acKeep (c : Cell) : Bool :=
  match c with
  | .na => false
  | .str s => !(s == "Total")
  | .qnum _ => true

/-- Per-cell effect of the frequency re-parse (source lines 87-91):
stringify, strip commas, coerce with `pd.to_numeric` under errors=coerce,
then `dropna`.  `none` means the row is dropped (parse failure or `NaN`). -/
def coerceFreq (c : Cell) : Option ℚ :=
  (pdToNumeric (stripComma (astypeStr c))).join

/-- The surviving `(category, frequency)` rows of the plot data frame:
category filter, then numeric coercion of `"Weighted Frequency"`, then
`dropna` (source lines 82-91). -/
def survivors (ac wf : ColData) (n : ℕ) : List (Cell × ℚ) :=
  (List.range n).filterMap (fun i =>
    match dataCellAt ac i with
    | none => none
    | some a =>
      if acKeep a then
        match dataCellAt wf i with
        | none => none
        | some w => (coerceFreq w).map (fun q => (a, q))
      else none)

/-- Pie-chart series (source lines 101-115); layout/title constants are not
modelled. -/
structure PieSpec where
  values : List ℚ
  labels : List Cell
  hole : ℚ
deriving DecidableEq, Repr

/-- Box-plot series (source lines 119-133). -/
structure BoxSpec where
  y : List ℚ
deriving DecidableEq, Repr

/-- Bar-chart series (source lines 136-149). -/
structure BarSpec where
  x : List Cell
  y : List ℚ
deriving DecidableEq, Repr

/-- The visualization bundle: up to three chart entries. -/
structure VizBundle where
  pie_chart : Option PieSpec
  box_plot : Option BoxSpec
  bar_chart : Option BarSpec
deriving DecidableEq, Repr

/-- The empty bundle (`visualizations = {}`). -/
def VizBundle.empty : VizBundle :=
  ⟨none, none, none⟩

/-- The coerced `"Weighted Frequency"` series of the plot data frame after
`dropna` (the series whose dtype gates the box plot, source line 118).
coercing `pd.to_numeric` always yields a numeric dtype. -/
def freqColOf (df : Table) : ColData :=
  match getCol df "Answer Categories", getCol df "Weighted Frequency" with
  | some ca, some cw => .num ((survivors ca.data cw.data (nRows df)).map (fun r => some r.2))
  | _, _ => .num []

/-- Chart building from the surviving `(category, frequency)` rows (source
lines 96-149): the pie chart (a donut when more than five rows), the box
plot (guarded by the numeric dtype of the coerced frequency series, source
line 118 — the re-parsed series is numeric by construction), and the bar
chart. -/
def vizBuild (rows : List (Cell × ℚ)) : VizBundle :=
  if rows.isEmpty then VizBundle.empty
  else
    { pie_chart := some { values := rows.map Prod.snd, labels := rows.map Prod.fst,
                          hole := if 5 < rows.length then (3 : ℚ) / 10 else 0 },
      box_plot := if isNumericTyped (ColData.num (rows.map (fun r => some r.2))) then
                    some { y := rows.map Prod.snd }
                  else none,
      bar_chart := some { x := rows.map Prod.fst, y := rows.map Prod.snd } }

/-- Dispatch on the presence of the two required columns (source line 77). -/
def vizWith (oa ow : Option Col) (n : ℕ) : VizBundle :=
  match oa, ow with
  | some ca, some cw => vizBuild (survivors ca.data cw.data n)
  | _, _ => VizBundle.empty

/-- The shaper `create_visualizations` (source lines 69-155): empty table or missing
required columns give an empty bundle; otherwise filter and coerce the rows,
give up if none remain, and build the three charts. -/
def create_visualizations (df : Table) : VizBundle :=
  if tableEmpty df then VizBundle.empty
  else vizWith (getCol df "Answer Categories") (getCol df "Weighted Frequency") (nRows df)

theorem vizWith_some_some (ca cw : Col) (n : ℕ) :
    vizWith (some ca) (some cw) n = vizBuild (survivors ca.data cw.data n) := rfl

/-! ### The statistics summarizer (`get_basic_statistics`, source lines 157-180) -/

/-- The non-missing values of a numeric column (what pandas reductions and
`count()` operate on). -/
def nonNA (vs : List (Option ℚ)) : List ℚ :=
  vs.reduceOption

/-- Insertion into a sorted list (ascending). -/
def insertQ (x : ℚ) : List ℚ → List ℚ
  | [] => [x]
  | y :: ys => if x ≤ y then x :: y :: ys else y :: insertQ x ys

/-- Sorting, for the median. -/
def sortQ (l : List ℚ) : List ℚ :=
  l.foldr insertQ []

/-- Pandas `Series.mean` (NaN-skipping); `NaN` on an empty column. -/
def pdMean (vs : List (Option ℚ)) : Option ℚ :=
  match nonNA vs with
  | [] => none
  | x :: xs => some ((x :: xs).sum / ((x :: xs).length : ℚ))

/-- Pandas `Series.median` (NaN-skipping). -/
def pdMedian (vs : List (Option ℚ)) : Option ℚ :=
  let l := sortQ (nonNA vs)
  let n := l.length
  if n = 0 then none
  else if n % 2 = 1 then some (l.getD (n / 2) 0)
  else some ((l.getD (n / 2 - 1) 0 + l.getD (n / 2) 0) / 2)

/-- Pandas `Series.min` (NaN-skipping). -/
def pdMin (vs : List (Option ℚ)) : Option ℚ :=
  match nonNA vs with
  | [] => none
  | x :: xs => some (xs.foldl min x)

/-- Pandas `Series.max` (NaN-skipping). -/
def pdMax (vs : List (Option ℚ)) : Option ℚ :=
  match nonNA vs with
  | [] => none
  | x :: xs => some (xs.foldl max x)

/-- Sample variance (`ddof=1`), the square of `Series.std()`; `NaN` on fewer
than two values. -/
def sampleVar (vs : List (Option ℚ)) : Option ℚ :=
  let l := nonNA vs
  if l.length < 2 then none
  else
    let m := l.sum / (l.length : ℚ)
    some ((l.map (fun z => (z - m) ^ 2)).sum / ((l.length - 1 : ℕ) : ℚ))

/-- Model of Python round to two decimal places (half away from zero at
the model level; no theorem depends on tie behaviour). -/
def round2 (q : ℚ) : ℚ :=
  ((round ((100 : ℚ) * q) : ℤ) : ℚ) / 100

/-- Newton iteration for the integer square root, with explicit structural
fuel. -/
def sqrtIter : ℕ → ℕ → ℕ → ℕ
  | _, guess, 0 => guess
  | n, guess, fuel + 1 =>
    let next := (guess + n / guess) / 2
    if next < guess then sqrtIter n next fuel else guess

/-- Integer square root (`⌊√n⌋`). -/
def intSqrt (n : ℕ) : ℕ :=
  if n ≤ 1 then n else sqrtIter n (n / 2) n

/-- Model of the two-decimal rounding of the square root, computed exactly
on rationals via integer square roots. -/
def rsqrt2 (v : ℚ) : ℚ :=
  (((intSqrt (40000 * v.num.toNat * v.den) + v.den) / (2 * v.den) : ℕ) : ℚ) / 100

/-- One entry of the statistics record (source lines 169-176). -/
structure StatEntry where
  mean : Option ℚ
  median : Option ℚ
  min : Option ℚ
  max : Option ℚ
  std : Option ℚ
  count : ℕ
deriving DecidableEq, Repr

/-- The statistics of one numeric column (source lines 169-176): mean,
median, min, max and std rounded to two decimals (`round` of `NaN` is
`NaN`), plus the unrounded count of non-missing values. -/
def statEntry (vs : List (Option ℚ)) : StatEntry :=
  { mean := (pdMean vs).map round2
    median := (pdMedian vs).map round2
    min := (pdMin vs).map round2
    max := (pdMax vs).map round2
    std := (sampleVar vs).map rsqrt2
    count := (nonNA vs).length }

/-- Statistics of a column (only ever reached for numeric-typed columns). -/
def statEntryOf (c : Col) : StatEntry :=
  match c.data with
  | .num vs => statEntry vs
  | .obj _ => statEntry []

/-- The column selection of source lines 164-166: numeric dtype and name not
`"code"` case-insensitively. -/
def selectCols (t : Table) : List Col :=
  t.filter (fun c => isNumericTyped c.data && !(pdLower c.name = "code"))

/-- The statistics loop (source lines 168-176) with the per-column
computation abstracted as `f`, so that the `try`/`except` semantics of the
surrounding handler can be stated: the loop stops at the first failing
column. -/
def statsGo (f : Col → Except String StatEntry) : List Col → Except String (List (String × StatEntry))
  | [] => .ok []
  | c :: cs =>
    match f c with
    | .error e => .error e
    | .ok en => (statsGo f cs).map (fun r => (c.name, en) :: r)

/-- The summarizer `get_basic_statistics` with the per-column computation abstracted
(source lines 157-180): empty table gives an empty record; any failure
inside the loop is caught by the table-wide handler, which discards the
whole record and returns an empty one. -/
def statsGeneral (f : Col → Except String StatEntry) (t : Table) : List (String × StatEntry) :=
  if tableEmpty t then []
  else
    match statsGo f (selectCols t) with
    | .ok l => l
    | .error _ => []

/-- The summarizer `get_basic_statistics` as written: the per-column computation is the
total `statEntryOf` (the pandas reductions used never raise on a numeric
column). -/
def get_basic_statistics (t : Table) : List (String × StatEntry) :=
  statsGeneral (fun c => .ok (statEntryOf c)) t

/-! ### HTML rendering (`df.to_html`, source lines 222-227) -/

/-- Zero-padded three-digit group. -/
def pad3 (n : ℕ) : String :=
  if n < 10 then "00" ++ toString n
  else if n < 100 then "0" ++ toString n
  else toString n

/-- Two-digit decimal part. -/
def pad2 (n : ℕ) : String :=
  if n < 10 then "0" ++ toString n else toString n

/-- Thousands grouping of a natural number. -/
def groupNat (n : ℕ) : String :=
  if _h : n < 1000 then toString n
  else groupNat (n / 1000) ++ "," ++ pad3 (n % 1000)
termination_by n
decreasing_by exact Nat.div_lt_self (by omega) (by omega)

/-- The float-format lambda of source line 225: integer-valued numbers get
thousands separators and no decimal places, other numbers two decimal
places. -/
def fmtNum (q : ℚ) : String :=
  let neg := q < 0
  let a := if neg then -q else q
  let body :=
    if a.den = 1 then groupNat a.num.toNat
    else
      let m := (round ((100 : ℚ) * a)).toNat
      groupNat (m / 100) ++ "." ++ pad2 (m % 100)
  (if neg then "-" else "") ++ body

/-- Rendering of one object cell: missing values render as the empty string
(the na_rep argument), floats go through the float-format lambda, strings
render as themselves. -/
def renderObjCell (c : Cell) : String :=
  match c with
  | .na => ""
  | .str s => s
  | .qnum q => fmtNum q

/-- Rendering of a column payload. -/
def renderData (d : ColData) : List String :=
  match d with
  | .obj cells => cells.map renderObjCell
  | .num vs => vs.map (fun o => match o with | none => "" | some q => fmtNum q)

/-- The observable rendering of a table: the cell strings of `df.to_html`
(markup omitted), per column. -/
def renderTable (t : Table) : List (String × List String) :=
  t.map (fun c => (c.name, renderData c.data))

/-! ### `get_table_data` (source lines 191-235) -/

/-- The successful response payload (the fields derived from the table;
`table_description` is configuration, not modelled). -/
structure Response where
  table_html : List (String × List String)
  visualizations : VizBundle
  statistics : List (String × StatEntry)
deriving DecidableEq, Repr

/-- The data path of `get_table_data` on an already-loaded table: an empty
table is an error; the cleaning stage may raise (caught by the outer
handler, which turns it into an error payload); otherwise the response is
built from the cleaned table. -/
def get_table_data (df : Table) : Except String Response :=
  if tableEmpty df then .error "Table is empty"
  else
    match clean df with
    | .error e => .error e
    | .ok d =>
      .ok { table_html := renderTable d
            visualizations := create_visualizations d
            statistics := get_basic_statistics d }

/-! ### Concrete example tables used by the claim theorems -/

/-- A table whose `"Code"` column the loader delivered numeric-typed. -/
def exC1n : Table := [⟨"Code", .num [some 1, some 2]⟩]

/-- A table with an upper-case code column delivered text-typed, all values
digit strings. -/
def exC1w : Table := [⟨"CODE", .obj [.str "123", .str "456"]⟩]

/-- A text column with thousands separators and percent signs. -/
def exC2 : Table := [⟨"Val", .obj [.str "1,234", .str "56%"]⟩]

/-- The column `exC2` cleans to. -/
def exC2c : Col := ⟨"Val", .num [some 1234, some 56]⟩

/-- A table with a padded `" Total "` category row and a code column. -/
def exC3 : Table :=
  [⟨"Answer Categories", .obj [.str " Total ", .str "b"]⟩,
   ⟨"Code", .obj [.str "7", .str "8"]⟩]

/-- The cleaned form of `exC3`. -/
def exC3c : Table :=
  [⟨"Answer Categories", .obj [.str " Total ", .str "b"]⟩,
   ⟨"Code", .obj [.str "", .str "8"]⟩]

/-- Categories `A`, `B`, `Total` with an unparseable frequency on row `B`. -/
def exC4x : Table :=
  [⟨"Answer Categories", .obj [.str "A", .str "B", .str "Total"]⟩,
   ⟨"Weighted Frequency", .obj [.str "xx", .str "20", .str "5"]⟩]

/-- The spec's example: categories `A`, `B`, `Total` with frequencies
`"10"`, `"20"`, `"5"`. -/
def exC4 : Table :=
  [⟨"Answer Categories", .obj [.str "A", .str "B", .str "Total"]⟩,
   ⟨"Weighted Frequency", .obj [.str "10", .str "20", .str "5"]⟩]

/-- The category column of `exC4`. -/
def exC4ac : Col := ⟨"Answer Categories", .obj [.str "A", .str "B", .str "Total"]⟩

/-- The frequency column of `exC4`. -/
def exC4wf : Col := ⟨"Weighted Frequency", .obj [.str "10", .str "20", .str "5"]⟩

/-- One numeric column holding `[1, 2, 3]`. -/
def exC5 : Table := [⟨"x", .num [some 1, some 2, some 3]⟩]

/-- The numeric column of `exC5`, as a column value. -/
def exC5col : Col := ⟨"x", .num [some 1, some 2, some 3]⟩

/-- A table on which the first cleaning upcasts a numeric `"Code"` column:
the second cleaning then stringifies the upcast cells. -/
def exC7 : Table :=
  [⟨"Answer Categories", .obj [.str "Total", .str "x"]⟩,
   ⟨"Code", .num [some (3 / 2), none]⟩]

/-- Table `exC7` after one cleaning pass: the blanking upcast the code column to an
object column still holding a raw missing value. -/
def exC7a : Table :=
  [⟨"Answer Categories", .obj [.str "Total", .str "x"]⟩,
   ⟨"Code", .obj [.str "", .na]⟩]

/-- Table `exC7` after two cleaning passes: the missing value became the literal
string `"nan"`. -/
def exC7b : Table :=
  [⟨"Answer Categories", .obj [.str "Total", .str "x"]⟩,
   ⟨"Code", .obj [.str "", .str "nan"]⟩]

/-- An already-clean one-column table (fixed point witness). -/
def exC7w : Table := [⟨"A", .obj [.str "x"]⟩]

/-- A minimal table producing a non-empty bundle. -/
def exC8 : Table :=
  [⟨"Answer Categories", .obj [.str "A"]⟩,
   ⟨"Weighted Frequency", .obj [.str "10"]⟩]

/-- A table whose `"Answer Categories"` column is fully numeric-coercible
and which has a `"Code"` column. -/
def exC9 : Table :=
  [⟨"Answer Categories", .obj [.str "1", .str "2"]⟩,
   ⟨"Code", .obj [.str "7", .str "8"]⟩]

/-- A minimal table producing a non-empty bundle (for the bundle-shape
claim). -/
def exC10 : Table :=
  [⟨"Answer Categories", .obj [.str "B"]⟩,
   ⟨"Weighted Frequency", .obj [.str "7"]⟩]

/-- Test for a genuine string cell. -/
def isStrCell (c : Cell) : Bool :=
  match c with
  | .str _ => true
  | _ => false

/-- The invariant that every object column holds only genuine strings: true of every freshly cleaned
table except when the Total-blanking wrote into a numeric-typed `"Code"`
column (which pandas upcasts, leaving raw numbers and missing markers in an
object column). -/
def allObjStr (t : Table) : Bool :=
  t.all (fun c =>
    match c.data with
    | .obj cells => cells.all isStrCell
    | .num _ => true)

/-! ### Helper lemmas about the cleaner -/

theorem cleanCol_name (c : Col) : (cleanCol c).name = c.name := rfl

theorem cleanCol_num (c : Col) (vs : List (Option ℚ)) (h : c.data = .num vs) :
    cleanCol c = c := by
  rcases c with ⟨n, d⟩
  cases h
  rfl

theorem blankCol_name (mask : List Bool) (c : Col) : (blankCol mask c).name = c.name := by
  unfold blankCol
  split <;> rfl

theorem getCol_map (f : Col → Col) (hf : ∀ c, (f c).name = c.name) (t : Table) (n : String) :
    getCol (t.map f) n = (getCol t n).map f := by
  induction t with
  | nil => rfl
  | cons c cs ih =>
    by_cases h : c.name = n
    · simp [getCol, hf, h]
    · simp [getCol, hf, h, ih]

theorem stripCP_idem (s : String) : stripCP (stripCP s) = stripCP s := by
  simp [stripCP, List.filter_filter]

theorem map_astypeStr_str (l : List String) : (l.map Cell.str).map astypeStr = l := by
  rw [List.map_map]
  exact (List.map_congr_left (fun a _ => rfl)).trans (List.map_id l)

theorem map_stripCP_idem (l : List String) : (l.map stripCP).map stripCP = l.map stripCP := by
  rw [List.map_map]
  exact List.map_congr_left (fun a _ => stripCP_idem a)

theorem cleanData_obj (n : String) (cells : List Cell) :
    cleanData n (.obj cells) =
      (if pdLower n = "code" then ColData.obj ((cells.map astypeStr).map Cell.str)
       else if ((cells.map astypeStr).map stripCP).all (fun s => (pdToNumeric s).isSome) then
         ColData.num (((cells.map astypeStr).map stripCP).map (fun s => (pdToNumeric s).join))
       else ColData.obj (((cells.map astypeStr).map stripCP).map Cell.str)) := rfl

theorem cleanData_idem (n : String) (d : ColData) :
    cleanData n (cleanData n d) = cleanData n d := by
  cases d with
  | num vs => rfl
  | obj cells =>
    rw [cleanData_obj n cells]
    by_cases hc : pdLower n = "code"
    · rw [if_pos hc]
      simp only [cleanData_obj, map_astypeStr_str]
      rw [if_pos hc]
    · rw [if_neg hc]
      by_cases hall : ((cells.map astypeStr).map stripCP).all (fun s => (pdToNumeric s).isSome)
      · rw [if_pos hall]
        rfl
      · rw [if_neg hall]
        simp only [cleanData_obj, map_astypeStr_str, map_stripCP_idem]
        rw [if_neg hc, if_neg hall]

theorem cleanCol_idem (c : Col) : cleanCol (cleanCol c) = cleanCol c := by
  unfold cleanCol
  simp [cleanData_idem]

theorem cleanCols_idem (t : Table) : cleanCols (cleanCols t) = cleanCols t := by
  unfold cleanCols
  rw [List.map_map]
  exact List.map_congr_left (fun c _ => cleanCol_idem c)

theorem zipWith_blank_obj_idem (mask : List Bool) (cells : List Cell) :
    List.zipWith (fun m c => if m then Cell.str "" else c) mask
      (List.zipWith (fun m c => if m then Cell.str "" else c) mask cells) =
    List.zipWith (fun m c => if m then Cell.str "" else c) mask cells := by
  induction mask generalizing cells with
  | nil => rfl
  | cons m ms ih =>
    cases cells with
    | nil => rfl
    | cons c cs => cases m <;> simp [ih]

theorem zipWith_blank_num_idem (mask : List Bool) (vs : List (Option ℚ)) :
    List.zipWith (fun m c => if m then Cell.str "" else c) mask
      (List.zipWith (fun m v => if m then Cell.str "" else optToCell v) mask vs) =
    List.zipWith (fun m v => if m then Cell.str "" else optToCell v) mask vs := by
  induction mask generalizing vs with
  | nil => rfl
  | cons m ms ih =>
    cases vs with
    | nil => rfl
    | cons v rest => cases m <;> simp [ih]

theorem blankData_idem (mask : List Bool) (d : ColData) :
    blankData mask (blankData mask d) = blankData mask d := by
  cases d <;> simp [blankData, zipWith_blank_obj_idem, zipWith_blank_num_idem]

theorem blankData_isText (mask : List Bool) (d : ColData) :
    isTextTyped (blankData mask d) = true := by
  cases d <;> rfl

theorem blankCol_idem (mask : List Bool) (c : Col) :
    blankCol mask (blankCol mask c) = blankCol mask c := by
  unfold blankCol
  by_cases h : c.name = "Code" <;> simp [h, blankData_idem]

theorem blankCol_of_ne (mask : List Bool) (c : Col) (h : c.name ≠ "Code") :
    blankCol mask c = c := by
  unfold blankCol
  simp [h]

/-- Case analysis of a successful run of the cleaning stage. -/
theorem clean_cases {t t1 : Table} (h : clean t = .ok t1) :
    ((getCol (cleanCols t) "Answer Categories" = none ∨ getCol (cleanCols t) "Code" = none) ∧
      t1 = cleanCols t) ∨
    (∃ ca cells, getCol (cleanCols t) "Answer Categories" = some ca ∧
      (∃ cc, getCol (cleanCols t) "Code" = some cc) ∧ ca.data = .obj cells ∧
      ((((cells.map maskCell).any (fun b => b)) = false ∧ t1 = cleanCols t) ∨
       (((cells.map maskCell).any (fun b => b)) = true ∧
         t1 = (cleanCols t).map (blankCol (cells.map maskCell))))) := by
  have h' : blankStep (getCol (cleanCols t) "Answer Categories")
      (getCol (cleanCols t) "Code") (cleanCols t) = .ok t1 := h
  cases hA : getCol (cleanCols t) "Answer Categories" with
  | none =>
    rw [hA, blankStep_none] at h'
    exact Or.inl ⟨Or.inl rfl, (Except.ok.inj h').symm⟩
  | some ca =>
    rw [hA] at h'
    cases hC : getCol (cleanCols t) "Code" with
    | none =>
      rw [hC, blankStep_some_none] at h'
      exact Or.inl ⟨Or.inr rfl, (Except.ok.inj h').symm⟩
    | some cc =>
      rw [hC, blankStep_some_some] at h'
      cases hd : ca.data with
      | num vs =>
        rw [hd] at h'
        simp only [blankWith] at h'
        exact absurd h' (by simp)
      | obj cells =>
        rw [hd] at h'
        simp only [blankWith] at h'
        by_cases hany : ((cells.map maskCell).any (fun b => b)) = true
        · rw [if_pos hany] at h'
          exact Or.inr ⟨ca, cells, rfl, ⟨cc, rfl⟩, hd,
            Or.inr ⟨hany, (Except.ok.inj h').symm⟩⟩
        · rw [if_neg hany] at h'
          exact Or.inr ⟨ca, cells, rfl, ⟨cc, rfl⟩, hd,
            Or.inl ⟨by simpa using hany, (Except.ok.inj h').symm⟩⟩

theorem getCol_name {t : Table} {n : String} {c : Col} (h : getCol t n = some c) :
    c.name = n := by
  induction t with
  | nil => cases h
  | cons c0 cs ih =>
    unfold getCol at h
    by_cases h0 : c0.name = n
    · rw [if_pos h0] at h
      cases h
      exact h0
    · rw [if_neg h0] at h
      exact ih h

theorem cleanCols_getElem (t : Table) (i : ℕ) :
    (cleanCols t)[i]? = (t[i]?).map cleanCol := by
  unfold cleanCols
  exact List.getElem?_map cleanCol t i

/-- Where a successful cleaning run sends the column at position `i`. -/
theorem clean_ok_at {t t1 : Table} {i : ℕ} {c : Col} (h : clean t = .ok t1)
    (hc : t[i]? = some c) :
    ∃ c1, t1[i]? = some c1 ∧ c1.name = c.name ∧
      (c1 = cleanCol c ∨
       ∃ mask, c.name = "Code" ∧ c1 = ⟨c.name, blankData mask (cleanData c.name c.data)⟩) := by
  rcases clean_cases h with ⟨_, ht⟩ | ⟨ca, cells, _, _, _, hcase⟩
  · refine ⟨cleanCol c, ?_, rfl, Or.inl rfl⟩
    rw [ht, cleanCols_getElem, hc]
    rfl
  · rcases hcase with ⟨_, ht⟩ | ⟨_, ht⟩
    · refine ⟨cleanCol c, ?_, rfl, Or.inl rfl⟩
      rw [ht, cleanCols_getElem, hc]
      rfl
    · by_cases hn : c.name = "Code"
      · refine ⟨blankCol (cells.map maskCell) (cleanCol c), ?_, ?_, ?_⟩
        · rw [ht, List.getElem?_map, cleanCols_getElem, hc]
          rfl
        · rw [blankCol_name, cleanCol_name]
        · refine Or.inr ⟨cells.map maskCell, hn, ?_⟩
          unfold blankCol
          rw [if_pos (show (cleanCol c).name = "Code" from (cleanCol_name c).trans hn)]
          rfl
      · refine ⟨cleanCol c, ?_, rfl, Or.inl rfl⟩
        rw [ht, List.getElem?_map, cleanCols_getElem, hc]
        show some (blankCol _ (cleanCol c)) = _
        rw [blankCol_of_ne _ _ (by rw [cleanCol_name]; exact hn)]

theorem any_of_getElem {l : List Bool} {i : ℕ} (h : l[i]? = some true) :
    l.any (fun b => b) = true := by
  rw [List.any_eq_true]
  exact ⟨true, List.mem_iff_getElem?.mpr ⟨i, h⟩, rfl⟩

theorem blankData_cellAt_true {mask : List Bool} {d : ColData} {i : ℕ}
    (hm : mask[i]? = some true) (hlen : i < dataLen (blankData mask d)) :
    dataCellAt (blankData mask d) i = some (.str "") := by
  cases d with
  | obj cells =>
    have hcl : i < cells.length := by
      have := hlen
      simp only [blankData, dataLen, List.length_zipWith, lt_min_iff] at this
      exact this.2
    have hx : cells[i]? = some cells[i] := List.getElem?_eq_getElem hcl
    simp only [blankData, dataCellAt]
    rw [List.getElem?_zipWith, hm, hx]
    simp
  | num vs =>
    have hcl : i < vs.length := by
      have := hlen
      simp only [blankData, dataLen, List.length_zipWith, lt_min_iff] at this
      exact this.2
    have hx : vs[i]? = some vs[i] := List.getElem?_eq_getElem hcl
    simp only [blankData, dataCellAt]
    rw [List.getElem?_zipWith, hm, hx]
    simp

/-! ### Claims C1-C3: the cleaner -/

/-- Claim C1, counterexample: a `"Code"` column that the loader delivered
numeric-typed (digit values `1`, `2`) is *not* text-typed after cleaning —
the cleaning loop only touches `object`-dtype columns (source line 205), so
the numeric code column passes through numeric. -/
theorem claim1_counterexample :
    (clean exC1n).map (fun u => u.map (fun c => (c.name, isTextTyped c.data))) =
      .ok [("Code", false)] := by
  decide

/-- Claim C1 (amended): any column named "Code" (case-insensitively) that
the loader delivered text-typed is still text-typed after cleaning, even if
all of its values are digit strings.  The claim's parenthetical about
numeric-typed deliveries does not hold: the counterexample shows a
numeric-delivered code column passing through the cleaning loop numeric
(line 205 skips non-object columns), and no text-typing of such a column is
guaranteed (the Total-row blanking can separately upcast it, see the C7
counterexample). -/
theorem claim1_code_text_preserved {t t1 : Table} {i : ℕ} {c : Col}
    (h : clean t = .ok t1) (hc : t[i]? = some c)
    (hname : pdLower c.name = "code") (htext : isTextTyped c.data = true) :
    ∃ c1, t1[i]? = some c1 ∧ c1.name = c.name ∧ isTextTyped c1.data = true := by
  obtain ⟨c1, h1, hn, hcase⟩ := clean_ok_at h hc
  refine ⟨c1, h1, hn, ?_⟩
  obtain ⟨cells, hd⟩ : ∃ cells, c.data = .obj cells := by
    cases hdd : c.data with
    | obj cells => exact ⟨cells, rfl⟩
    | num vs => rw [hdd] at htext; exact absurd htext (by simp [isTextTyped])
  rcases hcase with rfl | ⟨mask, _, rfl⟩
  · show isTextTyped (cleanData c.name c.data) = true
    rw [hd, cleanData_obj, if_pos hname]
    rfl
  · exact blankData_isText mask _

/-- Witness for `claim1_code_text_preserved` at `exC1w`: a text-typed
`"CODE"` column of digit strings stays text-typed. -/
theorem claim1_witness :
    ∃ c1, exC1w[0]? = some c1 ∧ c1.name = "CODE" ∧ isTextTyped c1.data = true :=
  @claim1_code_text_preserved exC1w exC1w 0 ⟨"CODE", .obj [.str "123", .str "456"]⟩
    (by decide) rfl (by decide) rfl

/-- Claim C2: a text-typed column whose name is not "code"
(case-insensitively) is comma/percent-stripped cell-wise and then converted
to numeric exactly when every stripped value parses under `pd.to_numeric`;
when some value fails to parse, the column is kept as the stripped text
(and the cleaning run itself incurred no error from this column: the
conversion failure is swallowed by `except: pass`). -/
theorem claim2_value_column_coercion {t t1 : Table} {i : ℕ} {c : Col} {cells : List Cell}
    (h : clean t = .ok t1) (hc : t[i]? = some c)
    (hname : pdLower c.name ≠ "code") (hobj : c.data = .obj cells) :
    ∃ c1, t1[i]? = some c1 ∧ c1.name = c.name ∧
      (if ((cells.map astypeStr).map stripCP).all (fun s => (pdToNumeric s).isSome) then
        c1.data = .num (((cells.map astypeStr).map stripCP).map (fun s => (pdToNumeric s).join))
      else
        c1.data = .obj (((cells.map astypeStr).map stripCP).map Cell.str)) := by
  obtain ⟨c1, h1, hn, hcase⟩ := clean_ok_at h hc
  rcases hcase with rfl | ⟨_, hcode, _⟩
  · refine ⟨cleanCol c, h1, hn, ?_⟩
    by_cases hall : ((cells.map astypeStr).map stripCP).all (fun s => (pdToNumeric s).isSome)
    · rw [if_pos hall]
      show cleanData c.name c.data = _
      rw [hobj, cleanData_obj, if_neg hname, if_pos hall]
    · rw [if_neg hall]
      show cleanData c.name c.data = _
      rw [hobj, cleanData_obj, if_neg hname, if_neg hall]
  · exfalso
    apply hname
    rw [hcode]
    decide

/-- Witness for `claim2_value_column_coercion` at `exC2`: the column
`["1,234", "56%"]` strips to `["1234", "56"]`, every value parses, and the
column becomes numeric `[1234, 56]`. -/
theorem claim2_witness :
    ∃ c1, ([exC2c] : Table)[0]? = some c1 ∧ c1.name = "Val" ∧
      c1.data = .num [some 1234, some 56] := by
  obtain ⟨c1, h1, hn, hif⟩ :=
    @claim2_value_column_coercion exC2 [exC2c] 0 ⟨"Val", .obj [.str "1,234", .str "56%"]⟩
      [.str "1,234", .str "56%"] (by decide) rfl (by decide) rfl
  rw [if_pos (by decide)] at hif
  exact ⟨c1, h1, hn, by rw [hif]; decide⟩

/-- Claim C3: after a successful cleaning of a table having both an
"Answer Categories" and a "Code" column, every row whose trimmed,
lower-cased category value equals "total" carries the empty string in the
"Code" column. -/
theorem claim3_total_rows_blank_code {t t1 : Table} {ca cc : Col} {i : ℕ} {s : String}
    (h : clean t = .ok t1)
    (hA : getCol t1 "Answer Categories" = some ca)
    (hC : getCol t1 "Code" = some cc)
    (hs : dataCellAt ca.data i = some (.str s))
    (htot : pdLower (pdStrip s) = "total")
    (hlen : i < dataLen cc.data) :
    dataCellAt cc.data i = some (.str "") := by
  rcases clean_cases h with ⟨habs, ht⟩ | ⟨ca0, cells, hA0, ⟨cc0, hC0⟩, hd, hcase⟩
  · subst ht
    rcases habs with hn | hn
    · rw [hn] at hA; cases hA
    · rw [hn] at hC; cases hC
  · have hmaskAt : ∀ hca : ca.data = ColData.obj cells,
        (cells.map maskCell)[i]? = some true := by
      intro hca
      rw [hca] at hs
      have : cells[i]? = some (.str s) := hs
      rw [List.getElem?_map, this]
      simp [maskCell, htot]
    rcases hcase with ⟨hfalse, ht⟩ | ⟨_, ht⟩
    · exfalso
      subst ht
      have hca : ca = ca0 := Option.some.inj (hA.symm.trans hA0)
      have := any_of_getElem (hmaskAt (by rw [← hca] at hd; exact hd))
      rw [this] at hfalse
      cases hfalse
    · subst ht
      rw [getCol_map _ (blankCol_name _), hA0] at hA
      rw [getCol_map _ (blankCol_name _), hC0] at hC
      have hcaname : ca0.name = "Answer Categories" := getCol_name hA0
      have hccname : cc0.name = "Code" := getCol_name hC0
      have hca : ca = ca0 := by
        have := Option.some.inj hA
        rw [blankCol_of_ne _ _ (by rw [hcaname]; decide)] at this
        exact this.symm
      have hcc : cc = blankCol (cells.map maskCell) cc0 := (Option.some.inj hC).symm
      have hccdata : cc.data = blankData (cells.map maskCell) cc0.data := by
        rw [hcc]
        unfold blankCol
        rw [if_pos hccname]
      rw [hccdata]
      rw [hccdata] at hlen
      exact blankData_cellAt_true (hmaskAt (by rw [hca]; exact hd)) hlen

/-- Witness for `claim3_total_rows_blank_code` at `exC3`: the row with
category `" Total "` gets an empty code after cleaning. -/
theorem claim3_witness :
    dataCellAt (ColData.obj [Cell.str "", Cell.str "8"]) 0 = some (.str "") :=
  @claim3_total_rows_blank_code exC3 exC3c
    ⟨"Answer Categories", .obj [.str " Total ", .str "b"]⟩
    ⟨"Code", .obj [.str "", .str "8"]⟩ 0 " Total "
    (by decide) rfl rfl rfl (by decide) (by decide)

/-! ### Claim C7: idempotence of cleaning -/

theorem allstr_roundtrip (cells : List Cell) (h : cells.all isStrCell = true) :
    (cells.map astypeStr).map Cell.str = cells := by
  induction cells with
  | nil => rfl
  | cons c cs ih =>
    simp only [List.all_cons, Bool.and_eq_true] at h
    obtain ⟨h1, h2⟩ := h
    cases c with
    | str s => simp [astypeStr, ih h2]
    | na => cases h1
    | qnum q => cases h1

theorem allObjStr_at {t : Table} (h : allObjStr t = true) {x : Col} (hx : x ∈ t)
    {cells : List Cell} (hd : x.data = .obj cells) : cells.all isStrCell = true := by
  have hh := List.all_eq_true.mp h x hx
  rw [hd] at hh
  exact hh

/-- Claim C7, counterexample: cleaning is not idempotent.  On `exC7`
(categories `["Total", "x"]`, numeric code column `[1.5, NaN]`) the first
pass blanks the Total row of the numeric `"Code"` column, upcasting it to an
object column still holding a raw missing value; the second pass stringifies
that cell to the literal `"nan"`, so the twice-cleaned table differs from
the once-cleaned table both structurally and in its rendered HTML (an empty
cell versus the text `nan`). -/
theorem claim7_counterexample :
    clean exC7 = .ok exC7a ∧ clean exC7a = .ok exC7b ∧
      exC7a ≠ exC7b ∧ renderTable exC7a ≠ renderTable exC7b :=
  ⟨by decide, by decide, by decide, by decide⟩

/-- Claim C7 (amended): cleaning is idempotent on every table where it
succeeds and where the cleaned result holds only genuine strings in its
text columns — that is, whenever the Total-row blanking did not write into
a numeric-typed `"Code"` column (the counterexample's upcast).  Then the
second pass reproduces the cleaned table exactly. -/
theorem claim7_idempotent_when_no_upcast (t t1 : Table) (h : clean t = .ok t1)
    (hstr : allObjStr t1 = true) : clean t1 = .ok t1 := by
  rcases clean_cases h with ⟨habs, ht⟩ | ⟨ca0, cells, hA0, ⟨cc0, hC0⟩, hd, hcase⟩
  · subst ht
    unfold clean
    rw [cleanCols_idem]
    unfold blankTotals
    rcases habs with hn | hn
    · rw [hn, blankStep_none]
    · cases hAC : getCol (cleanCols t) "Answer Categories" with
      | none => rw [blankStep_none]
      | some ca => rw [hn, blankStep_some_none]
  · rcases hcase with ⟨hfalse, ht⟩ | ⟨hany, ht⟩
    · subst ht
      unfold clean
      rw [cleanCols_idem]
      unfold blankTotals
      rw [hA0, hC0, blankStep_some_some, hd]
      simp only [blankWith]
      rw [if_neg (by rw [hfalse]; exact Bool.false_ne_true)]
    · subst ht
      have hfix : cleanCols ((cleanCols t).map (blankCol (cells.map maskCell))) =
          (cleanCols t).map (blankCol (cells.map maskCell)) := by
        show ((cleanCols t).map (blankCol (cells.map maskCell))).map cleanCol = _
        have hptw : ∀ x ∈ (cleanCols t).map (blankCol (cells.map maskCell)),
            cleanCol x = x := by
          intro x hx
          obtain ⟨y0, hy0, hxe⟩ := List.mem_map.mp hx
          by_cases hn : y0.name = "Code"
          · have hxdata : x.data = blankData (cells.map maskCell) y0.data := by
              rw [← hxe]
              unfold blankCol
              rw [if_pos hn]
            obtain ⟨cells2, hc2⟩ : ∃ cells2, x.data = .obj cells2 := by
              rw [hxdata]
              cases y0.data with
              | obj l => exact ⟨_, rfl⟩
              | num l => exact ⟨_, rfl⟩
            have hall : cells2.all isStrCell = true := allObjStr_at hstr hx hc2
            have hxname : x.name = "Code" := by rw [← hxe, blankCol_name]; exact hn
            rcases x with ⟨nm, dt⟩
            simp only at hxname hc2
            subst hxname hc2
            show (⟨"Code", cleanData "Code" (.obj cells2)⟩ : Col) = _
            rw [cleanData_obj, if_pos (by decide), allstr_roundtrip cells2 hall]
          · obtain ⟨y, _, hye⟩ := List.mem_map.mp hy0
            rw [← hxe, blankCol_of_ne _ _ hn, ← hye]
            exact cleanCol_idem y
        calc ((cleanCols t).map (blankCol (cells.map maskCell))).map cleanCol
            = ((cleanCols t).map (blankCol (cells.map maskCell))).map id :=
              List.map_congr_left hptw
          _ = _ := List.map_id _
      unfold clean
      rw [hfix]
      unfold blankTotals
      have hA1 : getCol ((cleanCols t).map (blankCol (cells.map maskCell)))
          "Answer Categories" = some ca0 := by
        rw [getCol_map _ (blankCol_name _), hA0]
        show some (blankCol _ ca0) = _
        rw [blankCol_of_ne _ _ (by rw [getCol_name hA0]; decide)]
      have hC1 : getCol ((cleanCols t).map (blankCol (cells.map maskCell)))
          "Code" = some (blankCol (cells.map maskCell) cc0) := by
        rw [getCol_map _ (blankCol_name _), hC0]
        rfl
      rw [hA1, hC1, blankStep_some_some, hd]
      simp only [blankWith]
      rw [if_pos hany, List.map_map]
      exact congrArg Except.ok (List.map_congr_left
        (fun c _ => blankCol_idem (cells.map maskCell) c))

/-- Witness for `claim7_idempotent_when_no_upcast`: re-cleaning the cleaned
form of `exC3` (whose blanking wrote into a text-typed code column) changes
nothing. -/
theorem claim7_witness : clean exC3c = .ok exC3c :=
  claim7_idempotent_when_no_upcast exC3 exC3c (by decide) (by decide)

/-! ### Claims C4, C8, C10: the visualization shaper -/

theorem statsGo_ok (l : List Col) :
    statsGo (fun c => .ok (statEntryOf c)) l =
      .ok (l.map (fun c => (c.name, statEntryOf c))) := by
  induction l with
  | nil => rfl
  | cons c cs ih => simp [statsGo, ih, Except.map]

theorem statsGo_error {f : Col → Except String StatEntry} {l : List Col} {c : Col} {e : String}
    (hc : c ∈ l) (he : f c = .error e) : ∃ e2, statsGo f l = .error e2 := by
  induction l with
  | nil => cases hc
  | cons c0 cs ih =>
    cases hf : f c0 with
    | error e0 => exact ⟨e0, by simp [statsGo, hf]⟩
    | ok en =>
      rcases List.mem_cons.mp hc with rfl | hmem
      · rw [hf] at he
        cases he
      · obtain ⟨e2, h2⟩ := ih hmem
        exact ⟨e2, by simp [statsGo, hf, h2, Except.map]⟩

/-- Claim C4, counterexample: `create_visualizations` does not drop *only*
the rows whose category is missing or the literal text Total: on `exC4x`
the row with category A has the unparseable frequency text xx and is
dropped as well, so the bar chart keeps only the entry B with value 20,
although A is neither missing nor Total. -/
theorem claim4_counterexample :
    (create_visualizations exC4x).bar_chart =
      some { x := [Cell.str "B"], y := [(20 : ℚ)] } := by
  decide

/-- Claim C4 (amended): the chart series enumerate exactly the rows that
survive the two drops — the category filter (missing or exactly `"Total"`)
*and* the numeric coercion of `"Weighted Frequency"` (rows whose stripped
frequency fails to parse are dropped too); on the spec's example the result
is exactly `A : 10, B : 20`. -/
theorem claim4_filter_and_parse (df : Table) (ca cw : Col)
    (h1 : tableEmpty df = false)
    (h2 : getCol df "Answer Categories" = some ca)
    (h3 : getCol df "Weighted Frequency" = some cw)
    (h4 : survivors ca.data cw.data (nRows df) ≠ []) :
    (create_visualizations df).pie_chart =
      some { values := (survivors ca.data cw.data (nRows df)).map Prod.snd,
             labels := (survivors ca.data cw.data (nRows df)).map Prod.fst,
             hole := if 5 < (survivors ca.data cw.data (nRows df)).length then (3 : ℚ) / 10
                     else 0 } ∧
    (create_visualizations df).bar_chart =
      some { x := (survivors ca.data cw.data (nRows df)).map Prod.fst,
             y := (survivors ca.data cw.data (nRows df)).map Prod.snd } := by
  unfold create_visualizations
  rw [if_neg (by rw [h1]; exact Bool.false_ne_true), h2, h3, vizWith_some_some]
  unfold vizBuild
  rw [if_neg (fun he => h4 (by simpa using he))]
  exact ⟨rfl, rfl⟩

/-- Witness for `claim4_filter_and_parse` at the spec's example
`["A", "B", "Total"]` / `["10", "20", "5"]`: the pie and bar series hold
exactly the two entries `A : 10` and `B : 20`. -/
theorem claim4_witness :
    (create_visualizations exC4).pie_chart =
      some { values := [(10 : ℚ), 20], labels := [Cell.str "A", Cell.str "B"],
             hole := 0 } ∧
    (create_visualizations exC4).bar_chart =
      some { x := [Cell.str "A", Cell.str "B"], y := [(10 : ℚ), 20] } := by
  obtain ⟨hp, hb⟩ := claim4_filter_and_parse exC4 exC4ac exC4wf (by decide) (by decide)
    (by decide) (by decide)
  refine ⟨?_, ?_⟩
  · rw [hp]
    decide
  · rw [hb]
    decide

/-- Claim C8: the box-plot entry is present only when the re-parsed
`"Weighted Frequency"` series is numeric-typed (equivalently: were the
series to remain textual, the entry would be absent).  The guard of source
line 118 checks exactly this dtype, and the coercing `pd.to_numeric`
makes the re-parsed series numeric by construction. -/
theorem claim8_box_plot_requires_numeric (df : Table)
    (_h : (create_visualizations df).box_plot.isSome = true) :
    isNumericTyped (freqColOf df) = true := by
  unfold freqColOf
  cases getCol df "Answer Categories" <;> cases getCol df "Weighted Frequency" <;> rfl

/-- Witness for `claim8_box_plot_requires_numeric` at `exC8` (whose bundle
has a box plot). -/
theorem claim8_witness : isNumericTyped (freqColOf exC8) = true :=
  claim8_box_plot_requires_numeric exC8 (by decide)

theorem vizWith_nonempty {oa ow : Option Col} {n : ℕ}
    (h : vizWith oa ow n ≠ VizBundle.empty) :
    (vizWith oa ow n).pie_chart.isSome = true ∧
    (vizWith oa ow n).box_plot.isSome = true ∧
    (vizWith oa ow n).bar_chart.isSome = true := by
  cases oa with
  | none => exact absurd rfl h
  | some ca =>
    cases ow with
    | none => exact absurd rfl h
    | some cw =>
      rw [vizWith_some_some] at h ⊢
      unfold vizBuild at h ⊢
      by_cases hr : (survivors ca.data cw.data n).isEmpty
      · exact absurd (by rw [if_pos hr]) h
      · rw [if_neg hr]
        exact ⟨rfl, by simp [isNumericTyped], rfl⟩

/-- Claim C10: a non-empty visualization bundle always has all three
entries: after the coercing re-parse and `dropna`, the surviving
frequency series is always numeric-typed, so the box-plot guard is
satisfied whenever any rows remain. -/
theorem claim10_nonempty_bundle_complete (df : Table)
    (h : create_visualizations df ≠ VizBundle.empty) :
    (create_visualizations df).pie_chart.isSome = true ∧
    (create_visualizations df).box_plot.isSome = true ∧
    (create_visualizations df).bar_chart.isSome = true := by
  by_cases he : tableEmpty df
  · exact absurd (by unfold create_visualizations; rw [if_pos he]) h
  · have he2 : create_visualizations df =
        vizWith (getCol df "Answer Categories") (getCol df "Weighted Frequency")
          (nRows df) := by
      unfold create_visualizations
      rw [if_neg he]
    rw [he2] at h ⊢
    exact vizWith_nonempty h

/-- Witness for `claim10_nonempty_bundle_complete` at `exC10`. -/
theorem claim10_witness :
    (create_visualizations exC10).pie_chart.isSome = true ∧
    (create_visualizations exC10).box_plot.isSome = true ∧
    (create_visualizations exC10).bar_chart.isSome = true :=
  claim10_nonempty_bundle_complete exC10 (by decide)

/-! ### Claims C5, C6: the statistics summarizer -/

/-- Claim C5: `get_basic_statistics` returns the empty record on an empty
table, and otherwise one entry per numeric-typed non-"code" column holding
the two-decimal roundings of mean, median, min, max and std plus the
unrounded count; on the single column `[1, 2, 3]` it returns mean `2.0`,
median `2.0`, min `1.0`, max `3.0` (and std `1.0`), count `3`. -/
theorem claim5_statistics_contract :
    (∀ t : Table, get_basic_statistics t =
      if tableEmpty t then []
      else (selectCols t).map (fun c => (c.name, statEntryOf c))) ∧
    get_basic_statistics exC5 =
      [("x", { mean := some 2, median := some 2, min := some 1, max := some 3,
               std := some 1, count := 3 })] := by
  constructor
  · intro t
    unfold get_basic_statistics statsGeneral
    by_cases he : tableEmpty t
    · rw [if_pos he, if_pos he]
    · rw [if_neg he, if_neg he, statsGo_ok]
  · have hgen : get_basic_statistics exC5 =
        (selectCols exC5).map (fun c => (c.name, statEntryOf c)) := by
      unfold get_basic_statistics statsGeneral
      rw [if_neg (by decide), statsGo_ok]
    rw [hgen, show selectCols exC5 = [exC5col] from by decide]
    simp only [List.map_cons, List.map_nil]
    have hentry : statEntry [some (1 : ℚ), some 2, some 3] =
        { mean := some 2, median := some 2, min := some 1, max := some 3,
          std := some 1, count := 3 } := by
      have hn : nonNA [some (1 : ℚ), some 2, some 3] = [1, 2, 3] := by decide
      have hs : sortQ [(1 : ℚ), 2, 3] = [1, 2, 3] := by decide
      have hvar : sampleVar [some (1 : ℚ), some 2, some 3] = some 1 := by
        simp only [sampleVar, hn]
        norm_num [List.sum_cons, List.sum_nil, List.length_cons, List.length_nil]
      have hrs : rsqrt2 1 = 1 := by
        unfold rsqrt2
        rw [show (intSqrt (40000 * (1 : ℚ).num.toNat * (1 : ℚ).den) + (1 : ℚ).den) /
            (2 * (1 : ℚ).den) = 100 from by decide]
        norm_num
      unfold statEntry
      rw [StatEntry.mk.injEq]
      refine ⟨?_, ?_, ?_, ?_, ?_, ?_⟩
      · simp only [pdMean, hn]
        norm_num [round2, round_eq, List.sum_cons, List.sum_nil,
          List.length_cons, List.length_nil]
      · simp only [pdMedian, hn, hs]
        norm_num [round2, round_eq, List.getD]
      · simp only [pdMin, hn]
        norm_num [round2, round_eq, min_def]
      · simp only [pdMax, hn]
        norm_num [round2, round_eq, max_def]
      · rw [hvar]
        show some (rsqrt2 1) = some 1
        rw [hrs]
      · rw [hn]
        rfl
    rw [show (exC5col.name, statEntryOf exC5col) =
        ("x", statEntry [some (1 : ℚ), some 2, some 3]) from rfl, hentry]

/-- Claim C6: if any column-level computation inside `get_basic_statistics`
fails, the whole record is discarded and the empty record is returned, and
the failure never propagates (the summarizer's result type is the plain
record).  Stated over the summarizer with the per-column computation `f`
abstracted, since the concrete computations of the source are total. -/
theorem claim6_stats_failure_all_or_nothing
    (f : Col → Except String StatEntry) (t : Table) (c : Col) (e : String)
    (hc : c ∈ selectCols t) (he : f c = .error e) :
    statsGeneral f t = [] := by
  unfold statsGeneral
  by_cases het : tableEmpty t
  · rw [if_pos het]
  · rw [if_neg het]
    obtain ⟨e2, h2⟩ := statsGo_error hc he
    rw [h2]

/-- Witness for `claim6_stats_failure_all_or_nothing`: a per-column
computation that always fails yields the empty record on `exC5`. -/
theorem claim6_witness : statsGeneral (fun _ => .error "boom") exC5 = [] :=
  claim6_stats_failure_all_or_nothing (fun _ => .error "boom") exC5 exC5col "boom"
    (by decide) rfl

/-! ### Claim C9: the failing cleaning path -/

/-- Claim C9: on a table whose "Answer Categories" column is fully
numeric-coercible (so the cleaning loop converts it to numeric type) and
which also has a "Code" column, the Total-row blanking applies the `.str`
accessor to a numeric column and raises, so `get_table_data` returns an
error object instead of the cleaned table: cleaning is not failure-free. -/
theorem claim9_numeric_categories_error :
    clean exC9 = .error strAccessorErr ∧
    get_table_data exC9 = .error strAccessorErr :=
  ⟨by decide, by decide⟩
